import Mathlib

/-!
Shallow embedding of the sure_petcare client core
(`sure_petcare/__init__.py`): the persisted record, the per-endpoint
conditional-GET cache (`_get_data`), the authenticated GET with 401 retry
(`_api_get`), the token lifecycle (`update_authtoken`), the sync steps
(`update_*`), and the state-derivation queries (`get_lock_mode`,
`lock_mode`, `get_pet_location`, `set_pet_profile`).

Python exceptions are modelled with an explicit error type and `Except`;
Python `dict`s are modelled as association lists with insertion-order
update semantics; timestamps are seconds as `Nat`; network traffic is an
oracle `net : Nat -> HTTPResp` consumed in call order, so the number of
network calls made by an operation is visible as the difference of the
call counter threaded through every function.
-/

namespace SP

/-- Python exceptions raised by the module (subset that the embedded code
can raise).  `keyError`/`indexError`/`typeError`/`nameError`/`valueError`
are the builtin Python exceptions; the rest are the SPAPI* classes. -/
inductive Err where
  | readOnly                       -- SPAPIReadOnly
  | authError                      -- SPAPIAuthError
  | apiException (msg : String)    -- SPAPIException
  | uninitialised                  -- SPAPIUnitialised
  | unknownPet                     -- SPAPIUnknownPet
  | keyError (k : String)
  | indexError (k : String)
  | typeError
  | nameError (n : String)
  | valueError (msg : String)
deriving Repr, DecidableEq

-- Constants from the top of sure_petcare/__init__.py.

def CACHE_VERSION : Nat := 2

def HARD_RATE_LIMIT : Nat := 60   -- _HARD_RATE_LIMIT = 60

def EVT_MOVE : Nat := 0
def EVT_MOVE_UID : Nat := 7
def EVT_BAT_WARN : Nat := 1
def EVT_LOCK_ST : Nat := 6
def EVT_USR_IFO : Nat := 12
def EVT_USR_NEW : Nat := 17
def EVT_CURFEW : Nat := 20

def LK_MOD_UNLOCKED : Int := 0
def LK_MOD_LOCKED_IN : Int := 1
def LK_MOD_LOCKED_OUT : Int := 2
def LK_MOD_LOCKED_ALL : Int := 3
def LK_MOD_CURFEW : Int := 4
def LK_MOD_CURFEW_LOCKED : Int := -1
def LK_MOD_CURFEW_UNLOCKED : Int := -2
def LK_MOD_CURFEW_UNKNOWN : Int := -3

def PROD_ID_ROUTER : Nat := 1
def PROD_ID_PET_FLAP : Nat := 3
def PROD_ID_CAT_FLAP : Nat := 6

def LOC_INSIDE : Int := 1
def LOC_OUTSIDE : Int := 2
def LOC_UNKNOWN : Int := -1

def _URL_AUTH : String := "https://app.api.surehub.io/api/auth/login"
def _URL_HOUSEHOLD : String := "https://app.api.surehub.io/api/household"
def _URL_DEV : String := "https://app.api.surehub.io/api/device"
def _URL_TIMELINE : String := "https://app.api.surehub.io/api/timeline"
def _URL_PET : String := "https://app.api.surehub.io/api/pet"

-- Association lists standing for Python dicts: lookup finds the entry,
-- update replaces in place, a new key is appended at the end (Python
-- insertion order).

def lookupA {α β : Type} [DecidableEq α] : List (α × β) → α → Option β
  | [], _ => none
  | (a, b) :: rest, key => if a = key then some b else lookupA rest key

def setA {α β : Type} [DecidableEq α] : List (α × β) → α → β → List (α × β)
  | [], key, v => [(key, v)]
  | (a, b) :: rest, key, v =>
      if a = key then (key, v) :: rest else (a, b) :: setA rest key v

/-- Python `a or b` where both operands are an optional household/pet ID:
`None` and `0` are falsy. -/
def pyOrNat (a b : Option Nat) : Option Nat :=
  match a with
  | none => b
  | some 0 => b
  | some n => some n

/-- Python `str.strip want quotes` as used on the ETag header:
removes every leading and trailing double-quote character. -/
def stripQuotes (s : String) : String :=
  let cs := s.toList.dropWhile (fun c => c = '"')
  String.mk ((cs.reverse.dropWhile (fun c => c = '"')).reverse)

-- Typed views of the JSON payloads the code extracts from responses.

/-- A movement sub-record of a timeline event (tag_id, direction). -/
structure Movement where
  tag_id : Nat
  direction : Nat
deriving Repr, DecidableEq

/-- A timeline event: type code plus (for movement events) sub-records. -/
structure TLEvent where
  type : Nat
  movements : List Movement := []
deriving Repr, DecidableEq

/-- A tag record from the device listing (`tags` array): id and profile. -/
structure TagJson where
  id : Nat
  profile : Int
deriving Repr, DecidableEq

/-- An entry of `json()[data]` for the device-children endpoints. -/
structure DevChild where
  id : Nat
  product_id : Nat
  name : String
  tags : Option (List TagJson) := none
deriving Repr, DecidableEq

/-- An entry of `json()[data]` for the household listing. -/
structure HouseholdJson where
  id : Nat
  name : String
  tz : String
  utc_offset : Int
deriving Repr, DecidableEq

/-- An entry of `json()[data]` for the per-household pet listing. -/
structure PetJson where
  id : Nat
  name : String
  tag_id : Nat
  photo : Option String := none
deriving Repr, DecidableEq

/-- The nested `curfew` object of a locking record; `locked` is `none`
when the key is absent (looking it up raises KeyError). -/
structure CurfewData where
  locked : Option Bool := none
deriving Repr, DecidableEq

/-- The `locking` sub-record of a flap status; `curfew` is `none` when
the key is absent (looking it up raises KeyError). -/
structure LockData where
  mode : Int
  curfew : Option CurfewData := none
deriving Repr, DecidableEq

/-- `json()[data]` for the per-device status endpoint. -/
structure FlapStatusJson where
  battery : Int := 0
  locking : LockData
deriving Repr, DecidableEq

/-- `json()[data]` for the per-pet position endpoint. -/
structure PositionJson where
  pWhere : Int          -- the `where` field
  tag_id : Nat
deriving Repr, DecidableEq

/-- The `data` member of a response body, one variant per endpoint
payload shape; `nodata` stands for a body without a usable `data` key. -/
inductive BodyData where
  | nodata
  | token (t : String)
  | households (xs : List HouseholdJson)
  | devices (xs : List DevChild)
  | pets (xs : List PetJson)
  | flapStatus (fs : FlapStatusJson)
  | position (p : PositionJson)
  | timeline (xs : List TLEvent)
  | profileEcho (p : Int)
deriving Repr, DecidableEq

/-- A parsed JSON response body: an opaque identity plus its `data`. -/
structure Body where
  tag : Nat := 0
  data_ : BodyData := .nodata
deriving Repr, DecidableEq

/-- An HTTP response: status code, parsed body, raw ETag header. -/
structure HTTPResp where
  status : Nat
  body : Body := {}
  etagHdr : Option String := none
deriving Repr, DecidableEq

/-- One entry of the per-URL conditional-GET cache kept inside the record
dict (`self.cache[url] = dict of LastData, ETag, ts`). -/
structure CacheEntry where
  lastData : Body
  etag : String
  ts : Nat
deriving Repr, DecidableEq

/-- Pet info as stored by `update_pet_info` under `household[pets]`. -/
structure PetInfo where
  name : String
  tag_id : Nat
  photo : Option String := none
deriving Repr, DecidableEq

/-- A household entry of `cache[households]`.  `routers`/`flaps`/`pets`
are `none` while the corresponding dict key has not been created yet. -/
structure Household where
  name : String
  olson_tz : String := ""
  utc_offset : Int := 0
  default_router : Option Nat := none
  default_flap : Option Nat := none
  routers : Option (List (Nat × String)) := none
  flaps : Option (List (Nat × String)) := none
  pets : Option (List (Nat × PetInfo)) := none
deriving Repr, DecidableEq

/-- A pet status entry as stored by `update_pet_status`: the position
record plus the profile attached from the tags listing. -/
structure PetStatusEntry where
  pWhere : Int
  tag_id : Nat := 0
  profile : Int := 0
deriving Repr, DecidableEq

/-- The persisted record (`self.cache`): one Python dict holding the
named fields of `default_cache` plus, under URL string keys, the
per-endpoint HTTP cache entries (`urls` below).  `email`/`pw` model the
optional credential keys (absent from `default_cache`). -/
structure Record where
  authToken : Option String := none
  email : Option String := none
  pw : Option String := none
  households : Option (List (Nat × Household)) := none
  default_household : Option Nat := none
  router_status : List (Nat × List (Nat × BodyData)) := []
  flap_status : List (Nat × List (Nat × BodyData)) := []
  pet_status : List (Nat × List (Nat × PetStatusEntry)) := []
  pet_timeline : List (Nat × List (Nat × List TLEvent)) := []
  house_timeline : List (Nat × List TLEvent) := []
  urls : List (String × CacheEntry) := []
  version : Nat := CACHE_VERSION
deriving Repr, DecidableEq

/-- The in-memory API object state: the record plus the private
read-only flag (true outside a context-manager session). -/
structure SPState where
  cache : Record
  readOnly : Bool := true
deriving Repr, DecidableEq

/-- Constructor arguments that the update methods read back
(`self._init_email`, `self._init_pw`). -/
structure Config where
  initEmail : Option String := none
  initPw : Option String := none
deriving Repr, DecidableEq

/-- `default_cache` from `_load_cache`, parameterised on the
household ID given to the constructor (`self._init_default_household`). -/
def default_cache (initDefaultHousehold : Option Nat) : Record :=
  { authToken := none
    email := none
    pw := none
    households := none
    default_household := initDefaultHousehold
    router_status := []
    flap_status := []
    pet_status := []
    pet_timeline := []
    house_timeline := []
    urls := []
    version := CACHE_VERSION }

/-- `_load_cache`: `loaded` is the unpickled record when the cache file
opened and parsed, `none` when it did not (OSError/PickleError); on a
version mismatch the record is reset to `default_cache` with only
`AuthToken` carried over (`self.cache.get` of AuthToken). -/
def _load_cache (loaded : Option Record) (initDefaultHousehold : Option Nat) :
    Record :=
  let c := match loaded with
    | some r => r
    | none => default_cache initDefaultHousehold
  if c.version ≠ CACHE_VERSION then
    { default_cache initDefaultHousehold with authToken := c.authToken }
  else
    c

-- State Resolver: lock mode (pure over a `locking` record, as read from
-- `all_flap_status[household_id][flap_id][locking]`).

/-- `get_lock_mode` (lines 222-237) applied to a `locking` record: for
mode 4 it reads `lock_data[curfew][locked]`, raising KeyError when a key
is absent; otherwise it returns the numeric mode unchanged. -/
def get_lock_mode (lock_data : LockData) : Except Err Int :=
  if lock_data.mode = LK_MOD_CURFEW then
    match lock_data.curfew with
    | none => .error (.keyError "curfew")
    | some c =>
      match c.locked with
      | none => .error (.keyError "locked")
      | some b =>
        if b then .ok LK_MOD_CURFEW_LOCKED else .ok LK_MOD_CURFEW_UNLOCKED
  else
    .ok lock_data.mode

/-- `lock_mode` (lines 795-814) applied to a `locking` record: maps the
`get_lock_mode` result to a descriptive string; an unmatched value falls
off the elif chain and yields Python `None` (here `none`). -/
def lock_mode (lock_data : LockData) : Except Err (Option String) :=
  match get_lock_mode lock_data with
  | .error e => .error e
  | .ok lock =>
    .ok (if lock = LK_MOD_UNLOCKED then some "Unlocked"
      else if lock = LK_MOD_LOCKED_IN then some "Keep pets in"
      else if lock = LK_MOD_LOCKED_OUT then some "Keep pets out"
      else if lock = LK_MOD_LOCKED_ALL then some "Locked"
      else if lock = LK_MOD_CURFEW_UNKNOWN then
        some "Curfew enabled but state unknown"
      else if lock = LK_MOD_CURFEW_LOCKED then some "Locked with curfew"
      else if lock = LK_MOD_CURFEW_UNLOCKED then some "Unlocked with curfew"
      else none)

-- Low level remote API wrappers.

/-- The header set built by `_create_header`: only the members the
embedded logic inspects are modelled (the Authorization bearer header,
present exactly when a token is cached, and the If-None-Match
validator, present exactly when an ETag argument was passed). -/
structure Headers where
  auth : Option String := none
  ifNoneMatch : Option String := none
deriving Repr, DecidableEq

/-- `_create_header(ETag)` over the current record. -/
def _create_header (c : Record) (etagArg : Option String) : Headers :=
  { auth := c.authToken.map (fun t => "Bearer " ++ t)
    ifNoneMatch := etagArg }

/-- Python `self._init_email or self.cache[email]` (and the pw twin):
if the constructor argument is absent, the record key is read, raising
KeyError when that key is absent too.  (The empty string, also falsy in
Python, is not modelled; credentials are taken to be nonempty.) -/
def credential (init : Option String) (stored : Option String)
    (key : String) : Except Err String :=
  match init with
  | some s => .ok s
  | none =>
    match stored with
    | some s => .ok s
    | none => .error (.keyError key)

/-- `update_authtoken(force)` (lines 369-388).  The login POST consumes
`net k`; HTTP 401 raises SPAPIAuthError; otherwise
`json()[data][token]` is stored as the new AuthToken. -/
def update_authtoken (cfg : Config) (net : Nat → HTTPResp) (force : Bool)
    (st : SPState) (k : Nat) : Except Err Unit × SPState × Nat :=
  if st.readOnly then (.error .readOnly, st, k)
  else if st.cache.authToken.isSome ∧ ¬force then (.ok (), st, k)
  else
    match credential cfg.initEmail st.cache.email "email" with
    | .error e => (.error e, st, k)
    | .ok _ =>
      match credential cfg.initPw st.cache.pw "pw" with
      | .error e => (.error e, st, k)
      | .ok _ =>
        let r := net k
        if r.status = 401 then (.error .authError, st, k + 1)
        else
          match r.body.data_ with
          | .token t =>
            (.ok (), { st with cache := { st.cache with authToken := some t } },
              k + 1)
          | _ => (.error (.keyError "token"), st, k + 1)

/-- `_api_get` (lines 617-627).  The GET consumes `net k`.  On 401 it
forces a token refresh (one POST) and, when the original headers carried
an Authorization member, retries the GET exactly once with the new
bearer token, returning whatever that retry produced; without an
Authorization member it raises SPAPIException. -/
def _api_get (cfg : Config) (net : Nat → HTTPResp) (headers : Headers)
    (st : SPState) (k : Nat) : Except Err HTTPResp × SPState × Nat :=
  let r := net k
  if r.status = 401 then
    match update_authtoken cfg net true st (k + 1) with
    | (.error e, st1, k1) => (.error e, st1, k1)
    | (.ok _, st1, k1) =>
      if headers.auth.isSome then
        (.ok (net k1), st1, k1 + 1)
      else
        (.error (.apiException "Auth required but not present in header"),
          st1, k1)
  else
    (.ok r, st, k + 1)

/-- `_get_data(url)` (lines 568-597).  `now` is the current time in
seconds.  A cached entry younger than the hard rate limit is returned
with no network traffic; otherwise a (conditional, when cached) GET is
made through `_api_get`: statuses 500/502/503/504 fall back to the
cached body, 304 refreshes only the cached timestamp, 404 raises
IndexError(url), and any other status replaces the cache entry with the
new body, stripped ETag header (KeyError when the header is missing)
and timestamp.  (The `params` argument does not participate in the
cache key and is carried by the oracle, so it is not modelled.) -/
def _get_data (cfg : Config) (net : Nat → HTTPResp) (now : Nat)
    (url : String) (st : SPState) (k : Nat) :
    Except Err Body × SPState × Nat :=
  if st.readOnly then (.error .readOnly, st, k)
  else
    let headers : Option Headers :=
      match lookupA st.cache.urls url with
      | some entry =>
        if now - entry.ts > HARD_RATE_LIMIT then
          some (_create_header st.cache (some entry.etag))
        else none
      | none => some (_create_header st.cache none)
    match headers with
    | none =>
      match lookupA st.cache.urls url with
      | some entry => (.ok entry.lastData, st, k)
      | none => (.error (.keyError url), st, k)
    | some h =>
      match _api_get cfg net h st k with
      | (.error e, st1, k1) => (.error e, st1, k1)
      | (.ok r, st1, k1) =>
        if r.status ∈ ([304, 404, 500, 502, 503, 504] : List Nat) then
          if r.status = 404 then (.error (.indexError url), st1, k1)
          else if r.status = 304 then
            match lookupA st1.cache.urls url with
            | some entry =>
              (.ok entry.lastData,
                { st1 with cache := { st1.cache with
                    urls := setA st1.cache.urls url { entry with ts := now } } },
                k1)
            | none => (.error (.keyError url), st1, k1)
          else
            match lookupA st1.cache.urls url with
            | some entry => (.ok entry.lastData, st1, k1)
            | none => (.error (.keyError url), st1, k1)
        else
          match r.etagHdr with
          | none => (.error (.keyError "ETag"), st1, k1)
          | some tg =>
            (.ok r.body,
              { st1 with cache := { st1.cache with
                  urls := setA st1.cache.urls url
                    { lastData := r.body, etag := stripQuotes tg, ts := now } } },
              k1)

-- Query helpers over the record.

/-- `self.households[household_id]`: a `None` households field makes the
subscript a TypeError; a missing (or `None`) key a KeyError. -/
def getHousehold (c : Record) (hid : Option Nat) : Except Err Household :=
  match c.households with
  | none => .error .typeError
  | some hs =>
    match hid with
    | none => .error (.keyError "None")
    | some h =>
      match lookupA hs h with
      | none => .error (.keyError (toString h))
      | some hh => .ok hh

/-- `get_pets(household_id)` (lines 182-188): returns
`households[hid][pets]`, turning a KeyError into SPAPIUnitialised. -/
def get_pets (st : SPState) (household_id : Option Nat) :
    Except Err (List (Nat × PetInfo)) :=
  let hid := pyOrNat household_id st.cache.default_household
  match st.cache.households with
  | none => .error .typeError
  | some hs =>
    match hid with
    | none => .error .uninitialised
    | some h =>
      match lookupA hs h with
      | none => .error .uninitialised
      | some hh =>
        match hh.pets with
        | none => .error .uninitialised
        | some ps => .ok ps

/-- The name scan inside `get_pet_id_by_name`: first case-insensitive
match wins; falling off the loop returns Python `None`. -/
def findPetByName : List (Nat × PetInfo) → String → Option Nat
  | [], _ => none
  | (pid, pd) :: rest, nm =>
    if pd.name.toLower = nm.toLower then some pid else findPetByName rest nm

/-- `get_pet_id_by_name(name, household_id)` (lines 190-199). -/
def get_pet_id_by_name (st : SPState) (nm : String)
    (household_id : Option Nat) : Except Err (Option Nat) :=
  match get_pets st household_id with
  | .error e => .error e
  | .ok ps => .ok (findPetByName ps nm)

/-- `get_pet_location(pet_id, household_id)` (lines 201-209): raises
SPAPIUnknownPet when the pet is absent from
`all_pet_status[household_id]` (itself a KeyError when the household is
absent), otherwise returns the stored `where` field. -/
def get_pet_location (st : SPState) (pet_id : Nat)
    (household_id : Option Nat) : Except Err Int :=
  let hid := pyOrNat household_id st.cache.default_household
  match hid with
  | none => .error (.keyError "None")
  | some h =>
    match lookupA st.cache.pet_status h with
    | none => .error (.keyError (toString h))
    | some m =>
      match lookupA m pet_id with
      | none => .error .unknownPet
      | some entry => .ok entry.pWhere

-- Sync Orchestrator steps.

/-- `update_households(force)` (lines 390-415): gated on
`self.households is not None`; otherwise one `_api_get` of the household
listing, rebuilt into the households map with empty defaults, then the
default household is set to the first listed one when the recorded ID
is not among those fetched. -/
def update_households (cfg : Config) (net : Nat → HTTPResp) (force : Bool)
    (st : SPState) (k : Nat) : Except Err Unit × SPState × Nat :=
  if st.readOnly then (.error .readOnly, st, k)
  else if st.cache.households.isSome ∧ ¬force then (.ok (), st, k)
  else
    match _api_get cfg net (_create_header st.cache none) st k with
    | (.error e, st1, k1) => (.error e, st1, k1)
    | (.ok r, st1, k1) =>
      match r.body.data_ with
      | .households xs =>
        let hhs := xs.map (fun x =>
          (x.id, ({ name := x.name, olson_tz := x.tz,
                    utc_offset := x.utc_offset, default_router := none,
                    default_flap := none } : Household)))
        let st2 := { st1 with cache := { st1.cache with households := some hhs } }
        let keep := match st2.cache.default_household with
          | some d => (lookupA hhs d).isSome
          | none => false
        if keep then (.ok (), st2, k1)
        else
          match xs with
          | [] => (.error (.indexError "list index out of range"), st2, k1)
          | x0 :: _ =>
            (.ok (), { st2 with cache := { st2.cache with
                default_household := some x0.id } }, k1)
      | _ => (.error (.keyError "data"), st1, k1)

/-- The device loop of `update_device_ids`: building the routers and
flaps maps in listing order (flaps are product IDs 3 and 6, routers 1). -/
def collectDevices : List DevChild → List (Nat × String) →
    List (Nat × String) → List (Nat × String) × List (Nat × String)
  | [], rs, fs => (rs, fs)
  | d :: rest, rs, fs =>
    if d.product_id = PROD_ID_PET_FLAP ∨ d.product_id = PROD_ID_CAT_FLAP then
      collectDevices rest rs (setA fs d.id d.name)
    else if d.product_id = PROD_ID_ROUTER then
      collectDevices rest (setA rs d.id d.name) fs
    else
      collectDevices rest rs fs

/-- `update_device_ids(household_id, force)` (lines 417-442): gated on
both defaults being set; otherwise empties the household
routers/flaps maps, fetches the device children through `_get_data`,
fills the maps and sets the defaults to the first flap and router found
(IndexError when either list is empty). -/
def update_device_ids (cfg : Config) (net : Nat → HTTPResp) (now : Nat)
    (householdArg : Option Nat) (force : Bool) (st : SPState) (k : Nat) :
    Except Err Unit × SPState × Nat :=
  if st.readOnly then (.error .readOnly, st, k)
  else
    let hid := pyOrNat householdArg st.cache.default_household
    match getHousehold st.cache hid with
    | .error e => (.error e, st, k)
    | .ok hh =>
      if hh.default_router.isSome ∧ hh.default_flap.isSome ∧ ¬force then
        (.ok (), st, k)
      else
        match hid with
        | none => (.error (.keyError "None"), st, k)
        | some h =>
          let hh0 := { hh with routers := some [], flaps := some [] }
          let st1 := { st with cache := { st.cache with
            households := some (setA (st.cache.households.getD []) h hh0) } }
          let url := _URL_HOUSEHOLD ++ "/" ++ toString h ++ "/device"
          match _get_data cfg net now url st1 k with
          | (.error e, st2, k2) => (.error e, st2, k2)
          | (.ok body, st2, k2) =>
            match body.data_ with
            | .devices ds =>
              let rf := collectDevices ds [] []
              match rf.2 with
              | [] => (.error (.indexError "list index out of range"), st2, k2)
              | (f0, _) :: _ =>
                match rf.1 with
                | [] =>
                  (.error (.indexError "list index out of range"), st2, k2)
                | (r0, _) :: _ =>
                  let hh1 := { hh0 with
                    routers := some rf.1
                    flaps := some rf.2
                    default_flap := some f0
                    default_router := some r0 }
                  (.ok (), { st2 with cache := { st2.cache with
                      households :=
                        some (setA (st2.cache.households.getD []) h hh1) } },
                    k2)
            | _ => (.error (.keyError "data"), st2, k2)

/-- `update_pet_info(household_id, force)` (lines 444-464): gated on
`household.get(pets) is not None`; otherwise fetches the pet listing
through `_get_data` and rebuilds `household[pets]`. -/
def update_pet_info (cfg : Config) (net : Nat → HTTPResp) (now : Nat)
    (householdArg : Option Nat) (force : Bool) (st : SPState) (k : Nat) :
    Except Err Unit × SPState × Nat :=
  if st.readOnly then (.error .readOnly, st, k)
  else
    let hid := pyOrNat householdArg st.cache.default_household
    match getHousehold st.cache hid with
    | .error e => (.error e, st, k)
    | .ok hh =>
      if hh.pets.isSome ∧ ¬force then (.ok (), st, k)
      else
        match hid with
        | none => (.error (.keyError "None"), st, k)
        | some h =>
          let url := _URL_HOUSEHOLD ++ "/" ++ toString h ++ "/pet"
          match _get_data cfg net now url st k with
          | (.error e, st1, k1) => (.error e, st1, k1)
          | (.ok body, st1, k1) =>
            match body.data_ with
            | .pets xs =>
              let ps := xs.map (fun x =>
                (x.id, ({ name := x.name, tag_id := x.tag_id,
                          photo := x.photo } : PetInfo)))
              let hh1 := { hh with pets := some ps }
              (.ok (), { st1 with cache := { st1.cache with
                  households :=
                    some (setA (st1.cache.households.getD []) h hh1) } },
                k1)
            | _ => (.error (.keyError "data"), st1, k1)

/-- Python `%s` formatting of an ID that may be `None`. -/
def optIdStr : Option Nat → String
  | none => "None"
  | some n => toString n

/-- The per-flap loop of `update_flap_status`: one `_get_data` per flap,
storing `json()[data]` under `flap_status[household][flap]`. -/
def flapStatusLoop (cfg : Config) (net : Nat → HTTPResp) (now : Nat)
    (h : Nat) : List (Nat × String) → SPState → Nat →
    Except Err Unit × SPState × Nat
  | [], st, k => (.ok (), st, k)
  | (fid, _) :: rest, st, k =>
    let url := _URL_DEV ++ "/" ++ toString fid ++ "/status"
    match _get_data cfg net now url st k with
    | (.error e, st1, k1) => (.error e, st1, k1)
    | (.ok body, st1, k1) =>
      let inner := (lookupA st1.cache.flap_status h).getD []
      let st2 := { st1 with cache := { st1.cache with
        flap_status := setA st1.cache.flap_status h (setA inner fid body.data_) } }
      flapStatusLoop cfg net now h rest st2 k1

/-- `update_flap_status(household_id)` (lines 466-477): no gate on
already-present data and no force flag; every call iterates the
household flaps and invokes `_get_data` for each. -/
def update_flap_status (cfg : Config) (net : Nat → HTTPResp) (now : Nat)
    (householdArg : Option Nat) (st : SPState) (k : Nat) :
    Except Err Unit × SPState × Nat :=
  if st.readOnly then (.error .readOnly, st, k)
  else
    let hid := pyOrNat householdArg st.cache.default_household
    match getHousehold st.cache hid with
    | .error e => (.error e, st, k)
    | .ok hh =>
      match hid with
      | none => (.error (.keyError "None"), st, k)
      | some h =>
        match hh.flaps with
        | none => (.error (.keyError "flaps"), st, k)
        | some fl => flapStatusLoop cfg net now h fl st k

/-- The per-router loop of `update_router_status`. -/
def routerStatusLoop (cfg : Config) (net : Nat → HTTPResp) (now : Nat)
    (h : Nat) : List (Nat × String) → SPState → Nat →
    Except Err Unit × SPState × Nat
  | [], st, k => (.ok (), st, k)
  | (rid, _) :: rest, st, k =>
    let url := _URL_DEV ++ "/" ++ toString rid ++ "/status"
    match _get_data cfg net now url st k with
    | (.error e, st1, k1) => (.error e, st1, k1)
    | (.ok body, st1, k1) =>
      let inner := (lookupA st1.cache.router_status h).getD []
      let st2 := { st1 with cache := { st1.cache with
        router_status := setA st1.cache.router_status h (setA inner rid body.data_) } }
      routerStatusLoop cfg net now h rest st2 k1

/-- `update_router_status(household_id)` (lines 479-492): like
`update_flap_status`, ungated. -/
def update_router_status (cfg : Config) (net : Nat → HTTPResp) (now : Nat)
    (householdArg : Option Nat) (st : SPState) (k : Nat) :
    Except Err Unit × SPState × Nat :=
  if st.readOnly then (.error .readOnly, st, k)
  else
    let hid := pyOrNat householdArg st.cache.default_household
    match getHousehold st.cache hid with
    | .error e => (.error e, st, k)
    | .ok hh =>
      match hid with
      | none => (.error (.keyError "None"), st, k)
      | some h =>
        match hh.routers with
        | none => (.error (.keyError "routers"), st, k)
        | some rl => routerStatusLoop cfg net now h rl st k

/-- `tag_lut` of `update_timelines`: tag ID to pet ID, later duplicate
tags overwriting earlier ones as in a Python dict comprehension. -/
def tagLut (pets : List (Nat × PetInfo)) : List (Nat × Nat) :=
  pets.foldl (fun acc kv => setA acc kv.2.tag_id kv.1) []

/-- The filter comprehension building one pet timeline: keep movement
events whose first movement tag maps to this pet (KeyError on an
unknown tag, IndexError on an empty movements list, both as in the
source comprehension). -/
def petEventsFor (lut : List (Nat × Nat)) (pid : Nat) :
    List TLEvent → Except Err (List TLEvent)
  | [] => .ok []
  | x :: rest =>
    if x.type = EVT_MOVE then
      match x.movements with
      | [] => .error (.indexError "list index out of range")
      | m :: _ =>
        match lookupA lut m.tag_id with
        | none => .error (.keyError (toString m.tag_id))
        | some p =>
          match petEventsFor lut pid rest with
          | .error e => .error e
          | .ok ys => .ok (if p = pid then x :: ys else ys)
    else
      petEventsFor lut pid rest

/-- The outer comprehension of `update_timelines`: one filtered timeline
per pet. -/
def buildPetTimeline (lut : List (Nat × Nat)) (tl : List TLEvent) :
    List (Nat × PetInfo) → Except Err (List (Nat × List TLEvent))
  | [] => .ok []
  | (pid, _) :: rest =>
    match petEventsFor lut pid tl with
    | .error e => .error e
    | .ok ys =>
      match buildPetTimeline lut tl rest with
      | .error e => .error e
      | .ok m => .ok ((pid, ys) :: m)

/-- `update_timelines(household_id)` (lines 494-533): ungated; fetches
the household timeline through `_get_data`, stores it, and rebuilds the
per-pet timelines from it.  (The Python path that would file the result
under dict key `None` when no household is resolvable is not modelled;
that branch is collapsed to the KeyError the subsequent `get_pets`
lookup chain produces.) -/
def update_timelines (cfg : Config) (net : Nat → HTTPResp) (now : Nat)
    (householdArg : Option Nat) (st : SPState) (k : Nat) :
    Except Err Unit × SPState × Nat :=
  if st.readOnly then (.error .readOnly, st, k)
  else
    match pyOrNat householdArg st.cache.default_household with
    | none => (.error (.keyError "None"), st, k)
    | some h =>
      let url := _URL_TIMELINE ++ "/household/" ++ toString h
      match _get_data cfg net now url st k with
      | (.error e, st1, k1) => (.error e, st1, k1)
      | (.ok body, st1, k1) =>
        match body.data_ with
        | .timeline xs =>
          let st2 := { st1 with cache := { st1.cache with
            house_timeline := setA st1.cache.house_timeline h xs } }
          match get_pets st2 (some h) with
          | .error e => (.error e, st2, k1)
          | .ok pets =>
            match buildPetTimeline (tagLut pets) xs pets with
            | .error e => (.error e, st2, k1)
            | .ok ptl =>
              (.ok (), { st2 with cache := { st2.cache with
                  pet_timeline := setA st2.cache.pet_timeline h ptl } }, k1)
        | _ => (.error (.keyError "data"), st1, k1)

/-- `[x for x in response[data] if tags in x][0][tags]` of
`update_pet_status`: the tags of the first device carrying a `tags`
key, IndexError when none does. -/
def firstTags : List DevChild → Except Err (List TagJson)
  | [] => .error (.indexError "list index out of range")
  | d :: rest =>
    match d.tags with
    | some ts => .ok ts
    | none => firstTags rest

/-- `[x[profile] for x in tags if x[id] == tag_id][0]`: profile of the
first matching tag, IndexError when there is none. -/
def profileFor (tags : List TagJson) (tid : Nat) : Except Err Int :=
  match tags.filter (fun x => x.id = tid) with
  | [] => .error (.indexError "list index out of range")
  | x :: _ => .ok x.profile

/-- The per-pet loop of `update_pet_status`: one position `_get_data`
per pet, the profile attached from the tags listing, the combined
record stored under `pet_status[household][pet]`. -/
def petStatusLoop (cfg : Config) (net : Nat → HTTPResp) (now : Nat)
    (h : Nat) (tags : List TagJson) : List (Nat × PetInfo) → SPState → Nat →
    Except Err Unit × SPState × Nat
  | [], st, k => (.ok (), st, k)
  | (pid, _) :: rest, st, k =>
    let url := _URL_PET ++ "/" ++ toString pid ++ "/position"
    match _get_data cfg net now url st k with
    | (.error e, st1, k1) => (.error e, st1, k1)
    | (.ok body, st1, k1) =>
      match body.data_ with
      | .position p =>
        match profileFor tags p.tag_id with
        | .error e => (.error e, st1, k1)
        | .ok prof =>
          let inner := (lookupA st1.cache.pet_status h).getD []
          let st2 := { st1 with cache := { st1.cache with
            pet_status := setA st1.cache.pet_status h
              (setA inner pid { pWhere := p.pWhere, tag_id := p.tag_id,
                                profile := prof }) } }
          petStatusLoop cfg net now h tags rest st2 k1
      | _ => (.error (.keyError "data"), st1, k1)

/-- `update_pet_status(household_id)` (lines 536-560): ungated and
without a force flag; it first clears `pet_status[household]`, fetches
the device listing for the tag profiles, then fetches every pet
position.  (As in `update_timelines`, the Python `None` dict key is not
modelled.) -/
def update_pet_status (cfg : Config) (net : Nat → HTTPResp) (now : Nat)
    (householdArg : Option Nat) (st : SPState) (k : Nat) :
    Except Err Unit × SPState × Nat :=
  if st.readOnly then (.error .readOnly, st, k)
  else
    match pyOrNat householdArg st.cache.default_household with
    | none => (.error (.keyError "None"), st, k)
    | some h =>
      let st0 := { st with cache := { st.cache with
        pet_status := setA st.cache.pet_status h [] } }
      match _get_data cfg net now _URL_DEV st0 k with
      | (.error e, st1, k1) => (.error e, st1, k1)
      | (.ok body, st1, k1) =>
        match body.data_ with
        | .devices ds =>
          match firstTags ds with
          | .error e => (.error e, st1, k1)
          | .ok tags =>
            match get_pets st1 (some h) with
            | .error e => (.error e, st1, k1)
            | .ok pets => petStatusLoop cfg net now h tags pets st1 k1
        | _ => (.error (.keyError "data"), st1, k1)

/-- `update()` (lines 352-367): the fixed step sequence, stopping at the
first raised exception (router status is commented out in the source). -/
def update (cfg : Config) (net : Nat → HTTPResp) (now : Nat)
    (st : SPState) (k : Nat) : Except Err Unit × SPState × Nat :=
  match update_authtoken cfg net false st k with
  | (.error e, s, n) => (.error e, s, n)
  | (.ok _, s, n) =>
    match update_households cfg net false s n with
    | (.error e, s, n) => (.error e, s, n)
    | (.ok _, s, n) =>
      match update_device_ids cfg net now none false s n with
      | (.error e, s, n) => (.error e, s, n)
      | (.ok _, s, n) =>
        match update_pet_info cfg net now none false s n with
        | (.error e, s, n) => (.error e, s, n)
        | (.ok _, s, n) =>
          match update_pet_status cfg net now none s n with
          | (.error e, s, n) => (.error e, s, n)
          | (.ok _, s, n) =>
            match update_flap_status cfg net now none s n with
            | (.error e, s, n) => (.error e, s, n)
            | (.ok _, s, n) => update_timelines cfg net now none s n

-- set_pet_profile (mixin, lines 713-746).

/-- Names bound in the scope of `set_pet_profile`: its parameters and
the locals it assigns.  The name `kwargs` is in neither this list nor
the module global namespace, so evaluating it raises NameError. -/
def set_pet_profile_boundNames : List String :=
  ["self", "pet_id", "name", "profile", "household_id", "e",
   "tag_id", "pet_name", "device_id", "headers", "data", "url",
   "response", "response_data"]

/-- `self.household` property: `self.households[self.default_household]`. -/
def householdDefaultAccess (st : SPState) : Except Err Household :=
  match st.cache.households with
  | none => .error .typeError
  | some hs =>
    match st.cache.default_household with
    | none => .error (.keyError "None")
    | some d =>
      match lookupA hs d with
      | none => .error (.keyError (toString d))
      | some hh => .ok hh

/-- `set_pet_profile(pet_id, name, profile, household_id)`.  The PUT
consumes `net k` (note: there is no read-only check, the request always
goes out).  On a 401 response the code forces a token refresh and then
executes `if headers in kwargs`, where the bare name `kwargs` is
unbound in that function (see `set_pet_profile_boundNames`), so Python
raises NameError before the membership test and lines 738-742 are
unreachable; the echo check at the end is therefore never reached after
a 401.  On any other status the return value is the echo check of
`response.json()`. -/
def set_pet_profile (cfg : Config) (net : Nat → HTTPResp)
    (pet_idArg : Option Nat) (nameArg : Option String)
    (profile : Option Int) (householdArg : Option Nat)
    (st : SPState) (k : Nat) : Except Err Bool × SPState × Nat :=
  let _hid := pyOrNat householdArg st.cache.default_household
  match profile with
  | none => (.error (.valueError "Please define a profile int value"), st, k)
  | some prof =>
    if pet_idArg = none ∧ nameArg = none then
      (.error (.valueError "Please define pet_id or name"), st, k)
    else
      let pidE : Except Err Nat :=
        match pet_idArg with
        | some pid => .ok pid
        | none =>
          match nameArg with
          | none => .error (.valueError "Please define pet_id or name")
          | some nm =>
            match get_pet_id_by_name st nm none with
            | .error e => .error e
            | .ok none => .error .typeError    -- int(None)
            | .ok (some pid) => .ok pid
      match pidE with
      | .error e => (.error e, st, k)
      | .ok pid =>
        let tagE : Except Err Nat :=
          match householdDefaultAccess st with
          | .error (.keyError _) => .error .unknownPet
          | .error e => .error e
          | .ok hh =>
            match hh.pets with
            | none => .error .unknownPet
            | some ps =>
              match lookupA ps pid with
              | none => .error .unknownPet
              | some pd => .ok pd.tag_id
        match tagE with
        | .error e => (.error e, st, k)
        | .ok tid =>
          match householdDefaultAccess st with
          | .error e => (.error e, st, k)
          | .ok hh =>
            let _url := _URL_DEV ++ "/" ++ optIdStr hh.default_flap ++
              "/tag/" ++ toString tid
            let r := net k
            if r.status = 401 then
              match update_authtoken cfg net true st (k + 1) with
              | (.error e, st1, k1) => (.error e, st1, k1)
              | (.ok _, st1, k1) =>
                -- `if headers in kwargs:` -- evaluating the unbound name
                -- kwargs raises NameError; the branch bodies are dead.
                (.error (.nameError "kwargs"), st1, k1)
            else
              let res := match r.body.data_ with
                | .profileEcho p => if p = prof then true else false
                | _ => false
              (.ok res, st, k + 1)

-- State Resolver: the spec pet-location algorithm, for comparison
-- with the code `get_pet_location`.

/-- Modelled from the spec: the State Resolver pet-location rule as the
spec words it ("scan a pet timeline, newest-first, skipping any event
whose type is lock-status-change, user-info, new-user, curfew,
battery-warning, or unknown-tag movement; the first remaining event
with a nonzero direction yields Inside (direction 1) or Outside
(direction 2); if no qualifying event exists, result is Unknown").
No such scan exists anywhere in the source; this definition exists only
to be compared against the code `get_pet_location`. -/
def specPetLocation : List TLEvent → Int
  | [] => LOC_UNKNOWN
  | e :: rest =>
    if e.type = EVT_LOCK_ST ∨ e.type = EVT_USR_IFO ∨ e.type = EVT_USR_NEW ∨
        e.type = EVT_CURFEW ∨ e.type = EVT_BAT_WARN ∨ e.type = EVT_MOVE_UID then
      specPetLocation rest
    else
      match e.movements with
      | [] => specPetLocation rest
      | m :: _ =>
        if m.direction = 0 then specPetLocation rest
        else (m.direction : Int)

-- Theorems.

instance {ε α : Type} [DecidableEq ε] [DecidableEq α] :
    DecidableEq (Except ε α) := fun a b =>
  match a, b with
  | .error e, .error f => decidable_of_iff (e = f) (by simp)
  | .error _, .ok _ => isFalse (by simp)
  | .ok _, .error _ => isFalse (by simp)
  | .ok a, .ok b => decidable_of_iff (a = b) (by simp)

/-- Claim C2, counterexample: for a flap status record in curfew mode
whose curfew sub-state is absent, the lock-mode derivation does not
yield the string "Curfew enabled but state unknown" as the claim
states; `get_lock_mode` raises KeyError on the missing `curfew` key. -/
theorem c2_counterexample :
    lock_mode { mode := 4, curfew := none } = .error (.keyError "curfew") ∧
    lock_mode { mode := 4, curfew := none } ≠
      .ok (some "Curfew enabled but state unknown") := by
  decide

/-- Claim C2 (amended): locking modes 0,1,2,3 map to "Unlocked",
"Keep pets in", "Keep pets out", "Locked" whatever the curfew field
holds; mode 4 with a curfew sub-state present and locked true/false
maps to "Locked with curfew"/"Unlocked with curfew"; but when the
curfew sub-state (or its locked field) is absent the derivation raises
KeyError instead of producing "Curfew enabled but state unknown" (that
string is only reachable from the value LK_MOD.CURFEW_UNKNOWN, which
`get_lock_mode` never returns). -/
theorem c2_lock_mode_table :
    (∀ c : Option CurfewData,
      lock_mode { mode := 0, curfew := c } = .ok (some "Unlocked") ∧
      lock_mode { mode := 1, curfew := c } = .ok (some "Keep pets in") ∧
      lock_mode { mode := 2, curfew := c } = .ok (some "Keep pets out") ∧
      lock_mode { mode := 3, curfew := c } = .ok (some "Locked")) ∧
    lock_mode { mode := 4, curfew := some { locked := some true } } =
      .ok (some "Locked with curfew") ∧
    lock_mode { mode := 4, curfew := some { locked := some false } } =
      .ok (some "Unlocked with curfew") ∧
    lock_mode { mode := 4, curfew := none } = .error (.keyError "curfew") ∧
    lock_mode { mode := 4, curfew := some { locked := none } } =
      .error (.keyError "locked") := by
  refine ⟨fun c => ⟨rfl, rfl, rfl, rfl⟩, by decide, by decide, by decide,
    by decide⟩

/-- Claim C2 (amended), witness: the universally quantified part of
`c2_lock_mode_table` evaluated at the absent curfew field. -/
theorem c2_lock_mode_table_witness :
    lock_mode { mode := 0, curfew := none } = .ok (some "Unlocked") :=
  (c2_lock_mode_table.1 none).1

/-- Claim C6: loading a persisted record whose version differs from the
current schema version yields the default record in which only the auth
token is preserved; households are reset to none, every status and
timeline map is emptied, the HTTP cache entries are dropped and the
version is reset to the current one. -/
theorem c6_version_mismatch (r : Record) (idh : Option Nat)
    (h : r.version ≠ CACHE_VERSION) :
    _load_cache (some r) idh =
      { default_cache idh with authToken := r.authToken } ∧
    (_load_cache (some r) idh).authToken = r.authToken ∧
    (_load_cache (some r) idh).households = none ∧
    (_load_cache (some r) idh).default_household = idh ∧
    (_load_cache (some r) idh).router_status = [] ∧
    (_load_cache (some r) idh).flap_status = [] ∧
    (_load_cache (some r) idh).pet_status = [] ∧
    (_load_cache (some r) idh).pet_timeline = [] ∧
    (_load_cache (some r) idh).house_timeline = [] ∧
    (_load_cache (some r) idh).urls = [] ∧
    (_load_cache (some r) idh).version = CACHE_VERSION := by
  simp [_load_cache, h, default_cache]

/-- Claim C6 witness: a concrete version-1 record with junk contents
reduces to the default record with only its auth token carried over. -/
def rC6 : Record :=
  { authToken := some "tok"
    email := some "user"
    households := some [(9, { name := "home" })]
    default_household := some 9
    pet_status := [(9, [(5, { pWhere := 1 })])]
    urls := [("u", { lastData := {}, etag := "E", ts := 3 })]
    version := 1 }

theorem c6_version_mismatch_witness :
    rC6.version ≠ CACHE_VERSION ∧
    _load_cache (some rC6) (some 7) =
      { default_cache (some 7) with authToken := some "tok" } :=
  ⟨by decide, (c6_version_mismatch rC6 (some 7) (by decide)).1⟩

/-- Helper: a cache hit younger than the hard rate limit is returned
with no network traffic and no state change. -/
theorem get_data_fresh_hit (cfg : Config) (net : Nat → HTTPResp) (now : Nat)
    (url : String) (st : SPState) (k : Nat) (e : CacheEntry)
    (hro : st.readOnly = false)
    (hhit : lookupA st.cache.urls url = some e)
    (hfresh : now - e.ts ≤ HARD_RATE_LIMIT) :
    _get_data cfg net now url st k = (.ok e.lastData, st, k) := by
  have hng : ¬ now - e.ts > HARD_RATE_LIMIT := Nat.not_lt.mpr hfresh
  simp [_get_data, hro, hhit, hng]

/-- Helper: a cache miss with a non-401 success response stores the
body, stripped validator and timestamp, returning the fresh body after
exactly one network call. -/
theorem get_data_miss_store (cfg : Config) (net : Nat → HTTPResp)
    (now : Nat) (url : String) (st : SPState) (k : Nat) (tg : String)
    (hro : st.readOnly = false)
    (hmiss : lookupA st.cache.urls url = none)
    (h401 : (net k).status ≠ 401)
    (hlist : (net k).status ∉ ([304, 404, 500, 502, 503, 504] : List Nat))
    (hetag : (net k).etagHdr = some tg) :
    _get_data cfg net now url st k =
      (.ok (net k).body,
        { st with cache := { st.cache with
            urls := setA st.cache.urls url
              { lastData := (net k).body, etag := stripQuotes tg,
                ts := now } } },
        k + 1) := by
  simp [_get_data, _api_get, hro, hmiss, h401, hlist, hetag]

/-- Helper: looking up the key just stored finds the stored value. -/
theorem lookupA_setA {α β : Type} [DecidableEq α] (l : List (α × β))
    (a : α) (v : β) : lookupA (setA l a v) a = some v := by
  induction l with
  | nil => simp [setA, lookupA]
  | cons hd tl ih =>
    obtain ⟨x, y⟩ := hd
    by_cases h : x = a
    · simp [setA, lookupA, h]
    · simp [setA, lookupA, h, ih]

/-- Claim C1: starting from an endpoint not yet cached, a first
`_get_data` that fetches successfully makes exactly one network call
and returns the fetched body; a second `_get_data` for the same URL
whose elapsed time since the recorded timestamp of the entry is within the
60-second hard rate limit makes no network call, returns the identical
body, and leaves the state untouched — one network call in total. -/
theorem c1_rate_limit (cfg : Config) (net : Nat → HTTPResp)
    (now1 now2 : Nat) (url : String) (st : SPState) (k : Nat) (tg : String)
    (hro : st.readOnly = false)
    (hmiss : lookupA st.cache.urls url = none)
    (h401 : (net k).status ≠ 401)
    (hlist : (net k).status ∉ ([304, 404, 500, 502, 503, 504] : List Nat))
    (hetag : (net k).etagHdr = some tg)
    (hwin : now2 - now1 ≤ HARD_RATE_LIMIT) :
    (_get_data cfg net now1 url st k).2.2 = k + 1 ∧
    (_get_data cfg net now1 url st k).1 = .ok (net k).body ∧
    _get_data cfg net now2 url (_get_data cfg net now1 url st k).2.1
        (_get_data cfg net now1 url st k).2.2 =
      (.ok (net k).body, (_get_data cfg net now1 url st k).2.1, k + 1) := by
  have h1 := get_data_miss_store cfg net now1 url st k tg hro hmiss h401
    hlist hetag
  rw [h1]
  refine ⟨rfl, rfl, ?_⟩
  exact get_data_fresh_hit cfg net now2 url _ (k + 1)
    { lastData := (net k).body, etag := stripQuotes tg, ts := now1 }
    hro (lookupA_setA st.cache.urls url _) hwin

/-- Claim C1 witness: concrete run with a 200 response at time 0 and a
second call at time 60. -/
def cfgW : Config := {}

def bodyA : Body := { tag := 1 }

def netC1 : Nat → HTTPResp :=
  fun _ => { status := 200, body := bodyA, etagHdr := some "W" }

def stRW : SPState := { cache := {}, readOnly := false }

theorem c1_rate_limit_witness :
    stRW.readOnly = false ∧
    lookupA stRW.cache.urls "u" = none ∧
    (_get_data cfgW netC1 0 "u" stRW 0).2.2 = 1 ∧
    (_get_data cfgW netC1 0 "u" stRW 0).1 = .ok bodyA ∧
    _get_data cfgW netC1 60 "u" (_get_data cfgW netC1 0 "u" stRW 0).2.1
        (_get_data cfgW netC1 0 "u" stRW 0).2.2 =
      (.ok bodyA, (_get_data cfgW netC1 0 "u" stRW 0).2.1, 1) :=
  ⟨rfl, rfl,
    c1_rate_limit cfgW netC1 0 60 "u" stRW 0 "W" rfl rfl
      (by decide) (by decide) rfl (by decide)⟩

/-- Claim C8: a conditional refetch answered 304 keeps the cached body
and validator and refreshes only the entry timestamp to the current
time; and a further call inside the window so restarted is again served
from cache with no network call. -/
theorem c8_not_modified (cfg : Config) (net : Nat → HTTPResp)
    (now now3 : Nat) (url : String) (st : SPState) (k : Nat) (e : CacheEntry)
    (hro : st.readOnly = false)
    (hhit : lookupA st.cache.urls url = some e)
    (hstale : now - e.ts > HARD_RATE_LIMIT)
    (h304 : (net k).status = 304)
    (hwin : now3 - now ≤ HARD_RATE_LIMIT) :
    _get_data cfg net now url st k =
      (.ok e.lastData,
        { st with cache := { st.cache with
            urls := setA st.cache.urls url { e with ts := now } } },
        k + 1) ∧
    _get_data cfg net now3 url
        { st with cache := { st.cache with
            urls := setA st.cache.urls url { e with ts := now } } } (k + 1) =
      (.ok e.lastData,
        { st with cache := { st.cache with
            urls := setA st.cache.urls url { e with ts := now } } },
        k + 1) := by
  constructor
  · simp [_get_data, _api_get, hro, hhit, hstale, h304]
  · exact get_data_fresh_hit cfg net now3 url _ (k + 1) { e with ts := now }
      hro (lookupA_setA st.cache.urls url _) hwin

/-- Claim C8 witness: a cached entry from time 0, refetched at time 100
against a 304 server, keeps its body and validator, moves its timestamp
to 100, and a call at time 160 is again served from cache. -/
def eC8 : CacheEntry := { lastData := bodyA, etag := "E8", ts := 0 }

def stC8 : SPState :=
  { cache := { urls := [("u", eC8)] }, readOnly := false }

def netC8 : Nat → HTTPResp := fun _ => { status := 304 }

theorem c8_not_modified_witness :
    lookupA stC8.cache.urls "u" = some eC8 ∧
    _get_data cfgW netC8 100 "u" stC8 0 =
      (.ok bodyA,
        { stC8 with cache := { stC8.cache with
            urls := setA stC8.cache.urls "u" { eC8 with ts := 100 } } },
        1) :=
  ⟨rfl,
    (c8_not_modified cfgW netC8 100 160 "u" stC8 0 eC8 rfl rfl
      (by decide) rfl (by decide)).1⟩

/-- Claim C4, counterexample: a 404 response when a previously cached
body exists is NOT returned from cache without error as the claim
states: `_get_data` raises IndexError(url) even though a cached body is
present. -/
def eC4 : CacheEntry := { lastData := bodyA, etag := "E4", ts := 0 }

def stC4 : SPState :=
  { cache := { urls := [("u", eC4)] }, readOnly := false }

def netC4 : Nat → HTTPResp := fun _ => { status := 404 }

theorem c4_counterexample :
    lookupA stC4.cache.urls "u" = some eC4 ∧
    _get_data cfgW netC4 100 "u" stC4 0 =
      (.error (.indexError "u"), stC4, 1) ∧
    (_get_data cfgW netC4 100 "u" stC4 0).1 ≠ .ok eC4.lastData := by
  refine ⟨rfl, ?_, ?_⟩ <;> decide

/-- Claim C4 (amended): on a transient failure code (500/502/503/504)
with a previously cached body, the cached body is returned without
error and without replacing the entry; a 404 raises the fatal lookup
error IndexError(url) unconditionally — with or without a previously
cached body (the cached-fallback part of the claim holds only for the
5xx codes, not for 404). -/
theorem c4_error_fallback (cfg : Config) (net : Nat → HTTPResp)
    (now : Nat) (url : String) (st : SPState) (k : Nat)
    (hro : st.readOnly = false) :
    (∀ e, lookupA st.cache.urls url = some e →
      now - e.ts > HARD_RATE_LIMIT →
      ((net k).status ∈ ([500, 502, 503, 504] : List Nat) →
        _get_data cfg net now url st k = (.ok e.lastData, st, k + 1)) ∧
      ((net k).status = 404 →
        _get_data cfg net now url st k =
          (.error (.indexError url), st, k + 1))) ∧
    (lookupA st.cache.urls url = none → (net k).status = 404 →
      _get_data cfg net now url st k =
        (.error (.indexError url), st, k + 1)) := by
  constructor
  · intro e hhit hstale
    constructor
    · intro hmem
      simp only [List.mem_cons, List.mem_singleton, List.not_mem_nil,
        or_false] at hmem
      rcases hmem with h | h | h | h <;>
        simp [_get_data, _api_get, hro, hhit, hstale, h]
    · intro h404
      simp [_get_data, _api_get, hro, hhit, hstale, h404]
  · intro hmiss h404
    simp [_get_data, _api_get, hro, hmiss, h404]

/-- Claim C4 (amended) witness: a 503 with a stale cached entry returns
the cached body after one network call; the same state under a 404
raises IndexError. -/
def netC4b : Nat → HTTPResp := fun _ => { status := 503 }

theorem c4_error_fallback_witness :
    stC4.readOnly = false ∧
    lookupA stC4.cache.urls "u" = some eC4 ∧
    _get_data cfgW netC4b 100 "u" stC4 0 = (.ok eC4.lastData, stC4, 1) ∧
    _get_data cfgW netC4 100 "u" stC4 0 =
      (.error (.indexError "u"), stC4, 1) :=
  ⟨rfl, rfl,
    ((c4_error_fallback cfgW netC4b 100 "u" stC4 0 rfl).1 eC4 rfl
      (by decide)).1 (by decide),
    ((c4_error_fallback cfgW netC4 100 "u" stC4 0 rfl).1 eC4 rfl
      (by decide)).2 rfl⟩

/-- Claim C5, counterexample: when the retried request answers 401
again, no fatal AuthRequired error is raised — `_api_get` hands the 401
response back to the caller.  Concretely: first GET 401, login POST
succeeds with a fresh token, retried GET 401; the result is `.ok` of a
status-401 response, not an error. -/
def cfgC5 : Config := { initEmail := some "e", initPw := some "p" }

def stC5 : SPState :=
  { cache := { authToken := some "old" }, readOnly := false }

def hdrsC5 : Headers := { auth := some "Bearer old" }

def netC5 : Nat → HTTPResp := fun k =>
  if k = 1 then { status := 200, body := { data_ := .token "new" } }
  else { status := 401 }

theorem c5_counterexample :
    (netC5 0).status = 401 ∧ (netC5 2).status = 401 ∧
    _api_get cfgC5 netC5 hdrsC5 stC5 0 =
      (.ok { status := 401 },
        { stC5 with cache := { stC5.cache with authToken := some "new" } },
        3) ∧
    (∀ e : Err, (_api_get cfgC5 netC5 hdrsC5 stC5 0).1 ≠ .error e) := by
  refine ⟨rfl, rfl, by decide, ?_⟩
  have h : (_api_get cfgC5 netC5 hdrsC5 stC5 0).1 = .ok { status := 401 } :=
    by decide
  intro e
  rw [h]
  simp

/-- Claim C5 (amended): on a 401 the forced token refresh runs and,
when the original request carried an Authorization header, the request
is retried exactly once with the new credential (total: two GETs and
one login POST); whatever the retried request returns — including a
second 401 — is returned to the caller as a response, with no further
retry and no AuthRequired error raised. -/
theorem c5_retry_once (cfg : Config) (net : Nat → HTTPResp)
    (headers : Headers) (st : SPState) (k : Nat) (t : String)
    (hro : st.readOnly = false)
    (h401 : (net k).status = 401)
    (hauth : headers.auth.isSome = true)
    (hmail : (credential cfg.initEmail st.cache.email "email").isOk = true)
    (hpw : (credential cfg.initPw st.cache.pw "pw").isOk = true)
    (hpost : (net (k + 1)).status ≠ 401)
    (htok : (net (k + 1)).body.data_ = .token t) :
    _api_get cfg net headers st k =
      (.ok (net (k + 2)),
        { st with cache := { st.cache with authToken := some t } },
        k + 3) := by
  obtain ⟨em, hem⟩ : ∃ s, credential cfg.initEmail st.cache.email "email"
      = .ok s := by
    cases hcr : credential cfg.initEmail st.cache.email "email" with
    | ok s => exact ⟨s, rfl⟩
    | error e => rw [hcr] at hmail; simp [Except.isOk, Except.toBool] at hmail
  obtain ⟨pw, hpw2⟩ : ∃ s, credential cfg.initPw st.cache.pw "pw"
      = .ok s := by
    cases hcr : credential cfg.initPw st.cache.pw "pw" with
    | ok s => exact ⟨s, rfl⟩
    | error e => rw [hcr] at hpw; simp [Except.isOk, Except.toBool] at hpw
  simp [_api_get, update_authtoken, hro, h401, hauth, hem, hpw2, hpost, htok]

/-- Claim C5 (amended) witness: a concrete double-401 run with the
oracle `netC5` satisfies the amended statement. -/
theorem c5_retry_once_witness :
    (netC5 0).status = 401 ∧
    _api_get cfgC5 netC5 hdrsC5 stC5 0 =
      (.ok (netC5 2),
        { stC5 with cache := { stC5.cache with authToken := some "new" } },
        3) :=
  ⟨rfl,
    c5_retry_once cfgC5 netC5 hdrsC5 stC5 0 "new" rfl rfl rfl
      (by decide) (by decide) (by decide) rfl⟩

/-- Claim C9: every update step, the composite `update`, and the
low-level cached fetch `_get_data`, invoked while not inside a mutating
session (read-only state), raise SPAPIReadOnly with the network-call
counter and the record both untouched. -/
theorem c9_read_only (cfg : Config) (net : Nat → HTTPResp) (now : Nat)
    (hid : Option Nat) (force : Bool) (url : String) (st : SPState)
    (k : Nat) (hro : st.readOnly = true) :
    update_authtoken cfg net force st k = (.error .readOnly, st, k) ∧
    update_households cfg net force st k = (.error .readOnly, st, k) ∧
    update_device_ids cfg net now hid force st k = (.error .readOnly, st, k) ∧
    update_pet_info cfg net now hid force st k = (.error .readOnly, st, k) ∧
    update_pet_status cfg net now hid st k = (.error .readOnly, st, k) ∧
    update_flap_status cfg net now hid st k = (.error .readOnly, st, k) ∧
    update_router_status cfg net now hid st k = (.error .readOnly, st, k) ∧
    update_timelines cfg net now hid st k = (.error .readOnly, st, k) ∧
    update cfg net now st k = (.error .readOnly, st, k) ∧
    _get_data cfg net now url st k = (.error .readOnly, st, k) := by
  refine ⟨?_, ?_, ?_, ?_, ?_, ?_, ?_, ?_, ?_, ?_⟩
  · simp [update_authtoken, hro]
  · simp [update_households, hro]
  · simp [update_device_ids, hro]
  · simp [update_pet_info, hro]
  · simp [update_pet_status, hro]
  · simp [update_flap_status, hro]
  · simp [update_router_status, hro]
  · simp [update_timelines, hro]
  · simp [update, update_authtoken, hro]
  · simp [_get_data, hro]

/-- Claim C9 witness: a concrete read-only state. -/
def stRO : SPState := { cache := {}, readOnly := true }

theorem c9_read_only_witness :
    stRO.readOnly = true ∧
    update_pet_status cfgW netC1 0 none stRO 0 = (.error .readOnly, stRO, 0) ∧
    _get_data cfgW netC1 0 "u" stRO 0 = (.error .readOnly, stRO, 0) :=
  ⟨rfl,
    (c9_read_only cfgW netC1 0 none false "u" stRO 0 rfl).2.2.2.2.1,
    (c9_read_only cfgW netC1 0 none false "u" stRO 0
      rfl).2.2.2.2.2.2.2.2.2⟩

/-- Helper: `household_id or self.default_household` keeps a nonzero
explicit argument. -/
theorem pyOrNat_some {h : Nat} (d : Option Nat) (hnz : h ≠ 0) :
    pyOrNat (some h) d = some h := by
  cases h with
  | zero => exact absurd rfl hnz
  | succ n => rfl

/-- Claim C7, counterexample: `update_pet_status`, `update_flap_status`
and `update_timelines` are not cache-gated.  Concretely: a state whose
flap-status map is already populated for the only flap of the household, and
which carries no force flag (the function has none), still performs a
network call when `update_flap_status` runs. -/
def fsDataC7 : BodyData := .flapStatus { locking := { mode := 0 } }

def stC7 : SPState :=
  { cache :=
      { authToken := some "t"
        households := some [(1,
          { name := "home", default_router := some 3, default_flap := some 2,
            routers := some [(3, "hub")], flaps := some [(2, "flap")] })]
        default_household := some 1
        flap_status := [(1, [(2, fsDataC7)])] }
    readOnly := false }

def netC7 : Nat → HTTPResp := fun _ =>
  { status := 200, body := { data_ := fsDataC7 }, etagHdr := some "T" }

theorem c7_counterexample :
    lookupA stC7.cache.flap_status 1 = some [(2, fsDataC7)] ∧
    (update_flap_status cfgW netC7 0 (some 1) stC7 0).2.2 = 1 := by
  decide

/-- Claim C7 (amended): the discovery steps — token acquisition,
household discovery, device discovery and pet discovery — are
idempotent and cache-gated: with the relevant record field populated
and no force flag they make no network call and leave the state
untouched.  The status and timeline steps (`update_pet_status`,
`update_flap_status`, `update_timelines`) have no such gate and no
force flag: every invocation performs its fetches, subject only to the
per-endpoint 60-second hard rate limit inside `_get_data`. -/
theorem c7_gated_steps (cfg : Config) (net : Nat → HTTPResp) (now : Nat)
    (st : SPState) (k : Nat) (hro : st.readOnly = false) :
    (st.cache.authToken.isSome = true →
      update_authtoken cfg net false st k = (.ok (), st, k)) ∧
    (st.cache.households.isSome = true →
      update_households cfg net false st k = (.ok (), st, k)) ∧
    (∀ h hh, h ≠ 0 → getHousehold st.cache (some h) = .ok hh →
      (hh.default_router.isSome = true → hh.default_flap.isSome = true →
        update_device_ids cfg net now (some h) false st k = (.ok (), st, k)) ∧
      (hh.pets.isSome = true →
        update_pet_info cfg net now (some h) false st k = (.ok (), st, k))) := by
  refine ⟨?_, ?_, ?_⟩
  · intro htok
    simp [update_authtoken, hro, htok]
  · intro hhs
    simp [update_households, hro, hhs]
  · intro h hh hnz hget
    constructor
    · intro hr hf
      simp [update_device_ids, hro, pyOrNat_some _ hnz, hget, hr, hf]
    · intro hp
      simp [update_pet_info, hro, pyOrNat_some _ hnz, hget, hp]

/-- Claim C7 (amended) witness: in the fully populated state `stC7`
every gated step is a no-op. -/
theorem c7_gated_steps_witness :
    stC7.readOnly = false ∧
    update_authtoken cfgW netC7 false stC7 0 = (.ok (), stC7, 0) ∧
    update_households cfgW netC7 false stC7 0 = (.ok (), stC7, 0) ∧
    update_device_ids cfgW netC7 0 (some 1) false stC7 0 =
      (.ok (), stC7, 0) := by
  refine ⟨rfl, ?_, ?_, ?_⟩
  · exact (c7_gated_steps cfgW netC7 0 stC7 0 rfl).1 rfl
  · exact (c7_gated_steps cfgW netC7 0 stC7 0 rfl).2.1 rfl
  · exact ((c7_gated_steps cfgW netC7 0 stC7 0 rfl).2.2 1
      { name := "home", default_router := some 3, default_flap := some 2,
        routers := some [(3, "hub")], flaps := some [(2, "flap")] }
      (by decide) (by decide)).1 rfl rfl

/-- Claim C3, counterexample: the derived pet location is NOT computed
by scanning the pet timeline.  Concretely, using the example timeline
given in the spec (newest first: battery warning, then a direction-2
movement, then a direction-1 movement), the spec scan yields Outside
(2), but `get_pet_location` returns Inside (1) because it only reads
the `where` field of the stored position record and never consults the
timeline. -/
def tlC3 : List TLEvent :=
  [{ type := EVT_BAT_WARN },
   { type := EVT_MOVE, movements := [{ tag_id := 40, direction := 2 }] },
   { type := EVT_MOVE, movements := [{ tag_id := 40, direction := 1 }] }]

def stC3 : SPState :=
  { cache :=
      { default_household := some 1
        pet_status := [(1, [(5, { pWhere := 1, tag_id := 40 })])]
        pet_timeline := [(1, [(5, tlC3)])] }
    readOnly := true }

theorem c3_counterexample :
    lookupA ((lookupA stC3.cache.pet_timeline 1).getD []) 5 = some tlC3 ∧
    specPetLocation tlC3 = LOC_OUTSIDE ∧
    get_pet_location stC3 5 (some 1) = .ok LOC_INSIDE ∧
    get_pet_location stC3 5 (some 1) ≠ .ok (specPetLocation tlC3) := by
  decide

/-- Claim C3 (amended): the derived location of a pet is the `where`
field of its stored status record — populated by `update_pet_status`
from the per-pet position endpoint — returned verbatim by
`get_pet_location`; the pet timeline is never consulted, and
"Unknown" arises only when the status record itself carries it (or the
pet is missing, which raises SPAPIUnknownPet instead). -/
theorem c3_location_from_status (st : SPState) (pid h : Nat)
    (m : List (Nat × PetStatusEntry)) (entry : PetStatusEntry)
    (hnz : h ≠ 0)
    (hhs : lookupA st.cache.pet_status h = some m)
    (hpet : lookupA m pid = some entry) :
    get_pet_location st pid (some h) = .ok entry.pWhere := by
  simp [get_pet_location, pyOrNat_some _ hnz, hhs, hpet]

/-- Claim C3 (amended) witness: the concrete state of the
counterexample. -/
theorem c3_location_from_status_witness :
    lookupA stC3.cache.pet_status 1 = some [(5, { pWhere := 1, tag_id := 40 })] ∧
    get_pet_location stC3 5 (some 1) = .ok 1 :=
  ⟨rfl,
    c3_location_from_status stC3 5 1 [(5, { pWhere := 1, tag_id := 40 })]
      { pWhere := 1, tag_id := 40 } (by decide) rfl rfl⟩

/-- Claim C10: in `set_pet_profile`, when the PUT answers 401, the
handling branch evaluates the name `kwargs`, which is bound nowhere in
that function (see `set_pet_profile_boundNames`), so — once the forced
token refresh returns — Python raises NameError; the request is never
retried and the documented echo check on the response is never reached
after a 401. -/
theorem c10_put_401_nameerror (cfg : Config) (net : Nat → HTTPResp)
    (pid : Nat) (prof : Int) (hArg : Option Nat) (st : SPState) (k : Nat)
    (hhv : Household) (ps : List (Nat × PetInfo)) (pd : PetInfo) (t : String)
    (hacc : householdDefaultAccess st = .ok hhv)
    (hpets : hhv.pets = some ps)
    (hfind : lookupA ps pid = some pd)
    (hput : (net k).status = 401)
    (hro : st.readOnly = false)
    (hmail : (credential cfg.initEmail st.cache.email "email").isOk = true)
    (hpw : (credential cfg.initPw st.cache.pw "pw").isOk = true)
    (hpost : (net (k + 1)).status ≠ 401)
    (htok : (net (k + 1)).body.data_ = .token t) :
    set_pet_profile_boundNames.contains "kwargs" = false ∧
    set_pet_profile cfg net (some pid) none (some prof) hArg st k =
      (.error (.nameError "kwargs"),
        { st with cache := { st.cache with authToken := some t } },
        k + 2) ∧
    (∀ b, (set_pet_profile cfg net (some pid) none (some prof) hArg st k).1
      ≠ .ok b) := by
  obtain ⟨em, hem⟩ : ∃ s, credential cfg.initEmail st.cache.email "email"
      = .ok s := by
    cases hcr : credential cfg.initEmail st.cache.email "email" with
    | ok s => exact ⟨s, rfl⟩
    | error e => rw [hcr] at hmail; simp [Except.isOk, Except.toBool] at hmail
  obtain ⟨pw, hpw2⟩ : ∃ s, credential cfg.initPw st.cache.pw "pw"
      = .ok s := by
    cases hcr : credential cfg.initPw st.cache.pw "pw" with
    | ok s => exact ⟨s, rfl⟩
    | error e => rw [hcr] at hpw; simp [Except.isOk, Except.toBool] at hpw
  have hmain :
      set_pet_profile cfg net (some pid) none (some prof) hArg st k =
        (.error (.nameError "kwargs"),
          { st with cache := { st.cache with authToken := some t } },
          k + 2) := by
    simp [set_pet_profile, update_authtoken, hacc, hpets, hfind, hput,
      hro, hem, hpw2, hpost, htok]
  refine ⟨by decide, hmain, ?_⟩
  intro b
  rw [hmain]
  simp

/-- Claim C10 witness: a concrete invocation whose PUT answers 401 and
whose forced refresh succeeds ends in NameError on `kwargs`. -/
def cfgC10 : Config := { initEmail := some "e", initPw := some "p" }

def hhC10 : Household :=
  { name := "home", default_flap := some 2,
    pets := some [(5, { name := "Tom", tag_id := 40 })] }

def stC10 : SPState :=
  { cache :=
      { authToken := some "old"
        households := some [(1, hhC10)]
        default_household := some 1 }
    readOnly := false }

def netC10 : Nat → HTTPResp := fun k =>
  if k = 1 then { status := 200, body := { data_ := .token "new" } }
  else { status := 401 }

theorem c10_put_401_nameerror_witness :
    (netC10 0).status = 401 ∧
    set_pet_profile cfgC10 netC10 (some 5) none (some 3) none stC10 0 =
      (.error (.nameError "kwargs"),
        { stC10 with cache := { stC10.cache with authToken := some "new" } },
        2) :=
  ⟨rfl,
    (c10_put_401_nameerror cfgC10 netC10 5 3 none stC10 0 hhC10
      [(5, { name := "Tom", tag_id := 40 })] { name := "Tom", tag_id := 40 }
      "new" rfl rfl rfl rfl rfl (by decide) (by decide) (by decide)
      rfl).2.1⟩

end SP
